import Mathlib

/-!
Shallow embedding of `packages/compiler/src/render3/r3_deferred_blocks.ts`:
the parser/validator that turns a generic block tree into a `DeferredBlock`
AST node, collecting diagnostics.  Source spans (`σ`) and child nodes (`χ`)
are opaque to this code and are modelled as type parameters; the external
collaborators (`visitAll`, `parseDeferredTime`, `getTriggerParametersStart`,
`parseWhenTrigger`, `parseOnTrigger`, defined in other compilation units)
are modelled as a record of functions.  Exceptions thrown by the sub-parsers
are modelled with `Except String`.
-/

/-- The JavaScript regex character class `\s` (ECMA-262 WhiteSpace and
LineTerminator productions), used by all keyword patterns in the source. -/
def jsWs (c : Char) : Bool :=
  c = ' ' || c = '\t' || c = '\n' || c = '\r' || c = '\x0b' || c = '\x0c' ||
  c = '\u00A0' || c = '\u1680' || (0x2000 ≤ c.toNat && c.toNat ≤ 0x200A) ||
  c = '\u2028' || c = '\u2029' || c = '\u202F' || c = '\u205F' ||
  c = '\u3000' || c = '\uFEFF'

/-- Strip an exact literal from the front of a character list; `none` when
the list does not start with the literal. -/
def stripLit : List Char → List Char → Option (List Char)
  | [], s => some s
  | _ :: _, [] => none
  | k :: ks, c :: cs => if c = k then stripLit ks cs else none

/-- The test of an anchored regex of the shape `/^<kw>\s/`: the string starts
with the literal keyword followed by one whitespace character. -/
def kwWsTest (kw : String) (s : String) : Bool :=
  match stripLit kw.data s.data with
  | some (c :: _) => jsWs c
  | _ => false

/-- The test of an anchored regex of the shape `/^prefetch\s+<kw>\s/`:
`prefetch`, one or more whitespace characters, the keyword, one whitespace
character.  Because the keyword starts with a non-whitespace character, the
greedy `\s+` never needs backtracking, so consuming the maximal whitespace
run is equivalent to the regex. -/
def prefetchKwTest (kw : String) (s : String) : Bool :=
  match stripLit "prefetch".data s.data with
  | some (c :: rest) =>
    if jsWs c then
      match stripLit kw.data (rest.dropWhile jsWs) with
      | some (d :: _) => jsWs d
      | _ => false
    else false
  | _ => false

/-- `PREFETCH_WHEN_PATTERN = /^prefetch\s+when\s/`. -/
def PREFETCH_WHEN_PATTERN (s : String) : Bool := prefetchKwTest "when" s

/-- `PREFETCH_ON_PATTERN = /^prefetch\s+on\s/`. -/
def PREFETCH_ON_PATTERN (s : String) : Bool := prefetchKwTest "on" s

/-- `MINIMUM_PARAMETER_PATTERN = /^minimum\s/`. -/
def MINIMUM_PARAMETER_PATTERN (s : String) : Bool := kwWsTest "minimum" s

/-- `AFTER_PARAMETER_PATTERN = /^after\s/`. -/
def AFTER_PARAMETER_PATTERN (s : String) : Bool := kwWsTest "after" s

/-- `WHEN_PARAMETER_PATTERN = /^when\s/`. -/
def WHEN_PARAMETER_PATTERN (s : String) : Bool := kwWsTest "when" s

/-- `ON_PARAMETER_PATTERN = /^on\s/`. -/
def ON_PARAMETER_PATTERN (s : String) : Bool := kwWsTest "on" s

/-- JavaScript `String.prototype.slice` with one non-negative index. -/
def sliceFrom (s : String) (n : Nat) : String := String.mk (s.data.drop n)

/-- `html.BlockParameter`: raw parameter text plus provenance. -/
structure BlockParameter (σ : Type) where
  expression : String
  sourceSpan : σ
  deriving DecidableEq, Repr

/-- `html.Block`: a generic block produced by the upstream lexer. -/
structure Block (σ χ : Type) where
  name : String
  parameters : List (BlockParameter σ)
  children : List χ
  sourceSpan : σ
  startSourceSpan : σ
  endSourceSpan : Option σ
  deriving DecidableEq, Repr

/-- `ParseError`: a diagnostic carrying a source span and a message. -/
structure ParseError (σ : Type) where
  span : σ
  msg : String
  deriving DecidableEq, Repr

/-- `t.DeferredBlockTriggers`: a trigger-set mapping.  The trigger data is
produced by the external trigger-grammar collaborator and is opaque to this
code, so the mapping is modelled by its list of keys. -/
abbrev TriggerSet := List String

/-- `t.DeferredBlockPlaceholder`. -/
structure DeferredBlockPlaceholder (σ χ : Type) where
  children : List χ
  minimumTime : Option Nat
  sourceSpan : σ
  startSourceSpan : σ
  endSourceSpan : Option σ
  deriving DecidableEq, Repr

/-- `t.DeferredBlockLoading`. -/
structure DeferredBlockLoading (σ χ : Type) where
  children : List χ
  afterTime : Option Nat
  minimumTime : Option Nat
  sourceSpan : σ
  startSourceSpan : σ
  endSourceSpan : Option σ
  deriving DecidableEq, Repr

/-- `t.DeferredBlockError`. -/
structure DeferredBlockError (σ χ : Type) where
  children : List χ
  sourceSpan : σ
  startSourceSpan : σ
  endSourceSpan : Option σ
  deriving DecidableEq, Repr

/-- `t.DeferredBlock`. -/
structure DeferredBlock (σ χ : Type) where
  children : List χ
  triggers : TriggerSet
  prefetchTriggers : TriggerSet
  placeholder : Option (DeferredBlockPlaceholder σ χ)
  loading : Option (DeferredBlockLoading σ χ)
  error : Option (DeferredBlockError σ χ)
  sourceSpan : σ
  startSourceSpan : σ
  endSourceSpan : Option σ
  deriving DecidableEq, Repr

/-- The external collaborators of `r3_deferred_blocks.ts`: the AST visitor
(with `html.visitAll` applied to it), the binding parser (folded into
`parseWhenTrigger`), and the trigger-grammar helpers from
`r3_deferred_triggers.ts`.  The trigger parsers mutate a trigger set and the
shared error array in place; this is modelled by returning the updated
values. -/
structure Collaborators (σ χ : Type) where
  visitAll : List χ → List χ
  parseDeferredTime : String → Option Nat
  getTriggerParametersStart : String → Nat
  parseWhenTrigger : BlockParameter σ → TriggerSet → List (ParseError σ) →
      TriggerSet × List (ParseError σ)
  parseOnTrigger : BlockParameter σ → TriggerSet → List (ParseError σ) →
      Option (DeferredBlockPlaceholder σ χ) → TriggerSet × List (ParseError σ)

/-- `isConnectedDeferLoopBlock`. -/
def isConnectedDeferLoopBlock (name : String) : Bool :=
  name = "placeholder" || name = "loading" || name = "error"

/-- The parameter loop of `parsePlaceholderBlock`, threading the
`minimumTime` local; a thrown `Error` is an `Except.error`. -/
def placeholderParamsLoop {σ χ : Type} (C : Collaborators σ χ) :
    List (BlockParameter σ) → Option Nat → Except String (Option Nat)
  | [], minimumTime => .ok minimumTime
  | param :: rest, minimumTime =>
    if MINIMUM_PARAMETER_PATTERN param.expression then
      match minimumTime with
      | some _ => .error "@placeholder block can only have one \"minimum\" parameter"
      | none =>
        match C.parseDeferredTime
            (sliceFrom param.expression (C.getTriggerParametersStart param.expression)) with
        | none => .error "Could not parse time value of parameter \"minimum\""
        | some parsedTime => placeholderParamsLoop C rest (some parsedTime)
    else
      .error ("Unrecognized parameter in @placeholder block: \"" ++ param.expression ++ "\"")

/-- `parsePlaceholderBlock`. -/
def parsePlaceholderBlock {σ χ : Type} (C : Collaborators σ χ) (ast : Block σ χ) :
    Except String (DeferredBlockPlaceholder σ χ) :=
  (placeholderParamsLoop C ast.parameters none).map fun minimumTime =>
    { children := C.visitAll ast.children
      minimumTime := minimumTime
      sourceSpan := ast.sourceSpan
      startSourceSpan := ast.startSourceSpan
      endSourceSpan := ast.endSourceSpan }

/-- The parameter loop of `parseLoadingBlock`, threading the `afterTime` and
`minimumTime` locals. -/
def loadingParamsLoop {σ χ : Type} (C : Collaborators σ χ) :
    List (BlockParameter σ) → Option Nat → Option Nat →
      Except String (Option Nat × Option Nat)
  | [], afterTime, minimumTime => .ok (afterTime, minimumTime)
  | param :: rest, afterTime, minimumTime =>
    if AFTER_PARAMETER_PATTERN param.expression then
      match afterTime with
      | some _ => .error "@loading block can only have one \"after\" parameter"
      | none =>
        match C.parseDeferredTime
            (sliceFrom param.expression (C.getTriggerParametersStart param.expression)) with
        | none => .error "Could not parse time value of parameter \"after\""
        | some parsedTime => loadingParamsLoop C rest (some parsedTime) minimumTime
    else if MINIMUM_PARAMETER_PATTERN param.expression then
      match minimumTime with
      | some _ => .error "@loading block can only have one \"minimum\" parameter"
      | none =>
        match C.parseDeferredTime
            (sliceFrom param.expression (C.getTriggerParametersStart param.expression)) with
        | none => .error "Could not parse time value of parameter \"minimum\""
        | some parsedTime => loadingParamsLoop C rest afterTime (some parsedTime)
    else
      .error ("Unrecognized parameter in @loading block: \"" ++ param.expression ++ "\"")

/-- `parseLoadingBlock`. -/
def parseLoadingBlock {σ χ : Type} (C : Collaborators σ χ) (ast : Block σ χ) :
    Except String (DeferredBlockLoading σ χ) :=
  (loadingParamsLoop C ast.parameters none none).map fun times =>
    { children := C.visitAll ast.children
      afterTime := times.1
      minimumTime := times.2
      sourceSpan := ast.sourceSpan
      startSourceSpan := ast.startSourceSpan
      endSourceSpan := ast.endSourceSpan }

/-- `parseErrorBlock`: rejects any parameter with a single length check
before any per-parameter processing. -/
def parseErrorBlock {σ χ : Type} (C : Collaborators σ χ) (ast : Block σ χ) :
    Except String (DeferredBlockError σ χ) :=
  if ast.parameters.length > 0 then
    .error "@error block cannot have parameters"
  else
    .ok { children := C.visitAll ast.children
          sourceSpan := ast.sourceSpan
          startSourceSpan := ast.startSourceSpan
          endSourceSpan := ast.endSourceSpan }

/-- The three connected-block slots accumulated by `parseConnectedBlocks`. -/
structure ConnSlots (σ χ : Type) where
  placeholder : Option (DeferredBlockPlaceholder σ χ)
  loading : Option (DeferredBlockLoading σ χ)
  error : Option (DeferredBlockError σ χ)
  deriving DecidableEq, Repr

/-- The body of the `for` loop of `parseConnectedBlocks` for one recognized
block: the `switch` statement together with the `try/catch` that converts a
sub-parser exception into a diagnostic at the block's start span. -/
def handleConnectedBlock {σ χ : Type} (C : Collaborators σ χ) (block : Block σ χ)
    (s : ConnSlots σ χ) (errors : List (ParseError σ)) :
    ConnSlots σ χ × List (ParseError σ) :=
  if block.name = "placeholder" then
    match s.placeholder with
    | some _ =>
      (s, errors ++ [⟨block.startSourceSpan, "@defer block can only have one @placeholder block"⟩])
    | none =>
      match parsePlaceholderBlock C block with
      | .ok node => ({ s with placeholder := some node }, errors)
      | .error m => (s, errors ++ [⟨block.startSourceSpan, m⟩])
  else if block.name = "loading" then
    match s.loading with
    | some _ =>
      (s, errors ++ [⟨block.startSourceSpan, "@defer block can only have one @loading block"⟩])
    | none =>
      match parseLoadingBlock C block with
      | .ok node => ({ s with loading := some node }, errors)
      | .error m => (s, errors ++ [⟨block.startSourceSpan, m⟩])
  else if block.name = "error" then
    match s.error with
    | some _ =>
      (s, errors ++ [⟨block.startSourceSpan, "@defer block can only have one @error block"⟩])
    | none =>
      match parseErrorBlock C block with
      | .ok node => ({ s with error := some node }, errors)
      | .error m => (s, errors ++ [⟨block.startSourceSpan, m⟩])
  else
    (s, errors)

/-- The `for` loop of `parseConnectedBlocks`: an unrecognized block name
appends a diagnostic and `break`s out of the loop; otherwise the block is
handled and iteration continues. -/
def parseConnectedBlocksAux {σ χ : Type} (C : Collaborators σ χ) :
    List (Block σ χ) → ConnSlots σ χ → List (ParseError σ) →
      ConnSlots σ χ × List (ParseError σ)
  | [], s, errors => (s, errors)
  | block :: rest, s, errors =>
    if isConnectedDeferLoopBlock block.name then
      let r := handleConnectedBlock C block s errors
      parseConnectedBlocksAux C rest r.1 r.2
    else
      (s, errors ++ [⟨block.startSourceSpan, "Unrecognized block \"@" ++ block.name ++ "\""⟩])

/-- `parseConnectedBlocks`, starting from empty slots and the (at that point
empty) error array created by `createDeferredBlock`. -/
def parseConnectedBlocks {σ χ : Type} (C : Collaborators σ χ)
    (connectedBlocks : List (Block σ χ)) : ConnSlots σ χ × List (ParseError σ) :=
  parseConnectedBlocksAux C connectedBlocks ⟨none, none, none⟩ []

/-- The `for` loop of `parsePrimaryTriggers`: ordered prefix dispatch of each
primary-block parameter into one of four buckets, or an
`Unrecognized trigger` diagnostic. -/
def parsePrimaryTriggersAux {σ χ : Type} (C : Collaborators σ χ)
    (placeholder : Option (DeferredBlockPlaceholder σ χ)) :
    List (BlockParameter σ) → TriggerSet → TriggerSet → List (ParseError σ) →
      TriggerSet × TriggerSet × List (ParseError σ)
  | [], triggers, prefetchTriggers, errors => (triggers, prefetchTriggers, errors)
  | param :: rest, triggers, prefetchTriggers, errors =>
    if WHEN_PARAMETER_PATTERN param.expression then
      let r := C.parseWhenTrigger param triggers errors
      parsePrimaryTriggersAux C placeholder rest r.1 prefetchTriggers r.2
    else if ON_PARAMETER_PATTERN param.expression then
      let r := C.parseOnTrigger param triggers errors placeholder
      parsePrimaryTriggersAux C placeholder rest r.1 prefetchTriggers r.2
    else if PREFETCH_WHEN_PATTERN param.expression then
      let r := C.parseWhenTrigger param prefetchTriggers errors
      parsePrimaryTriggersAux C placeholder rest triggers r.1 r.2
    else if PREFETCH_ON_PATTERN param.expression then
      let r := C.parseOnTrigger param prefetchTriggers errors placeholder
      parsePrimaryTriggersAux C placeholder rest triggers r.1 r.2
    else
      parsePrimaryTriggersAux C placeholder rest triggers prefetchTriggers
        (errors ++ [⟨param.sourceSpan, "Unrecognized trigger"⟩])

/-- `parsePrimaryTriggers`. -/
def parsePrimaryTriggers {σ χ : Type} (C : Collaborators σ χ)
    (params : List (BlockParameter σ)) (errors : List (ParseError σ))
    (placeholder : Option (DeferredBlockPlaceholder σ χ)) :
    TriggerSet × TriggerSet × List (ParseError σ) :=
  parsePrimaryTriggersAux C placeholder params [] [] errors

/-- `createDeferredBlock`: the exported entry point. -/
def createDeferredBlock {σ χ : Type} (C : Collaborators σ χ) (ast : Block σ χ)
    (connectedBlocks : List (Block σ χ)) : DeferredBlock σ χ × List (ParseError σ) :=
  let r := parseConnectedBlocks C connectedBlocks
  let t := parsePrimaryTriggers C ast.parameters r.2 r.1.placeholder
  ({ children := C.visitAll ast.children
     triggers := t.1
     prefetchTriggers := t.2.1
     placeholder := r.1.placeholder
     loading := r.1.loading
     error := r.1.error
     sourceSpan := ast.sourceSpan
     startSourceSpan := ast.startSourceSpan
     endSourceSpan := ast.endSourceSpan }, t.2.2)

/-! ## Helper lemmas -/

theorem isConnected_placeholder : isConnectedDeferLoopBlock "placeholder" = true := rfl

theorem isConnected_loading : isConnectedDeferLoopBlock "loading" = true := rfl

theorem isConnected_error : isConnectedDeferLoopBlock "error" = true := rfl

theorem stripLit_append_self (ks rest : List Char) :
    stripLit ks (ks ++ rest) = some rest := by
  induction ks with
  | nil => rfl
  | cons k ks ih => simp [stripLit, ih]

theorem dropWhile_ws_append (ws l : List Char) (h : ∀ x ∈ ws, jsWs x = true) :
    List.dropWhile jsWs (ws ++ l) = List.dropWhile jsWs l := by
  induction ws with
  | nil => rfl
  | cons w ws ih =>
    simp only [List.cons_append, List.dropWhile]
    rw [h w (by simp)]
    exact ih fun x hx => h x (by simp [hx])

/-! ## Concrete instances used by witnesses and counterexamples -/

/-- A concrete collaborator record over `Nat` spans and `Nat` children: the
visitor is the identity, the time parser accepts `100ms`, the trigger
parameter offset is the position after `minimum `/`after `, and the trigger
parsers register one key derived from the parameter text. -/
def Cc : Collaborators Nat Nat where
  visitAll := fun cs => cs
  parseDeferredTime := fun s => if s = "100ms" then some 100 else none
  getTriggerParametersStart := fun _ => 8
  parseWhenTrigger := fun p ts errs => (ts ++ ["when:" ++ p.expression], errs)
  parseOnTrigger := fun p ts errs _ => (ts ++ ["on:" ++ p.expression], errs)

/-- A valid `@placeholder` block with no parameters. -/
def bPH : Block Nat Nat :=
  { name := "placeholder", parameters := [], children := [],
    sourceSpan := 0, startSourceSpan := 3, endSourceSpan := none }

/-- A valid `@loading` block with no parameters. -/
def bLoad : Block Nat Nat :=
  { name := "loading", parameters := [], children := [],
    sourceSpan := 0, startSourceSpan := 4, endSourceSpan := none }

/-- A valid `@error` block with no parameters. -/
def bErr : Block Nat Nat :=
  { name := "error", parameters := [], children := [],
    sourceSpan := 0, startSourceSpan := 5, endSourceSpan := none }

/-- A block with an unrecognized name. -/
def bUnknown : Block Nat Nat :=
  { name := "unknown-block", parameters := [], children := [],
    sourceSpan := 0, startSourceSpan := 6, endSourceSpan := none }

/-- An invalid `@placeholder` block: its parameter is not recognized. -/
def bBadPH : Block Nat Nat :=
  { name := "placeholder", parameters := [⟨"bogus", 9⟩], children := [],
    sourceSpan := 0, startSourceSpan := 7, endSourceSpan := none }

/-- An `@error` block carrying a parameter. -/
def bErrBad : Block Nat Nat :=
  { name := "error", parameters := [⟨"minimum 10ms", 11⟩], children := [],
    sourceSpan := 0, startSourceSpan := 8, endSourceSpan := none }

/-- A `@placeholder` block with `minimum 100ms` given twice. -/
def blkDupMin : Block Nat Nat :=
  { name := "placeholder"
    parameters := [⟨"minimum 100ms", 1⟩, ⟨"minimum 100ms", 2⟩]
    children := [], sourceSpan := 0, startSourceSpan := 10, endSourceSpan := none }

/-! ## Claims -/

/-- Claim C1, counterexample: for the concrete placeholder block with
`minimum 100ms` twice (duration parsing to 100), classification does produce
the single duplicate-`minimum` diagnostic, but the placeholder slot of the
result is `none` — no placeholder node with `minimumTime = 100` is produced,
contradicting the claim. -/
theorem C1_counterexample :
    (parseConnectedBlocks Cc [blkDupMin]).2 =
      [⟨10, "@placeholder block can only have one \"minimum\" parameter"⟩] ∧
    (parseConnectedBlocks Cc [blkDupMin]).1.placeholder = none := by
  constructor <;> rfl

/-- Claim C1, amended: for a placeholder connected block whose parameter
list is two `minimum` parameters (the first parsing to 100), classification
produces exactly one diagnostic
`@placeholder block can only have one "minimum" parameter` at the block's
start span, and the placeholder slot stays `none`: the duplicate aborts the
block's parse before node construction, so no placeholder node (and no
`minimumTime` value) is retained. -/
theorem C1_theorem {σ χ : Type} (C : Collaborators σ χ) (b : Block σ χ)
    (p1 p2 : BlockParameter σ)
    (hname : b.name = "placeholder")
    (hps : b.parameters = [p1, p2])
    (hm1 : MINIMUM_PARAMETER_PATTERN p1.expression = true)
    (hm2 : MINIMUM_PARAMETER_PATTERN p2.expression = true)
    (ht : C.parseDeferredTime
        (sliceFrom p1.expression (C.getTriggerParametersStart p1.expression)) = some 100) :
    parseConnectedBlocks C [b] =
      (⟨none, none, none⟩,
        [⟨b.startSourceSpan, "@placeholder block can only have one \"minimum\" parameter"⟩]) := by
  simp [parseConnectedBlocks, parseConnectedBlocksAux, handleConnectedBlock,
    isConnectedDeferLoopBlock, parsePlaceholderBlock, placeholderParamsLoop,
    Except.map, hname, hps, hm1, hm2, ht]

/-- Claim C1, witness for the amended theorem. -/
theorem C1_witness :
    parseConnectedBlocks Cc [blkDupMin] =
      (⟨none, none, none⟩,
        [⟨10, "@placeholder block can only have one \"minimum\" parameter"⟩]) :=
  C1_theorem Cc blkDupMin ⟨"minimum 100ms", 1⟩ ⟨"minimum 100ms", 2⟩
    rfl rfl (by decide) (by decide) rfl

/-- Claim C2: for the connected-block list [valid placeholder, block with
unrecognized name, valid loading], classification returns the placeholder,
leaves the loading slot `none` (siblings after the unrecognized block are
not processed), and produces exactly one diagnostic
`Unrecognized block "@<name>"` at the unrecognized block's start span. -/
theorem C2_theorem {σ χ : Type} (C : Collaborators σ χ) (b1 b2 b3 : Block σ χ)
    (n1 : DeferredBlockPlaceholder σ χ) (n3 : DeferredBlockLoading σ χ)
    (hn1 : b1.name = "placeholder")
    (hok1 : parsePlaceholderBlock C b1 = .ok n1)
    (hun : isConnectedDeferLoopBlock b2.name = false)
    (hn3 : b3.name = "loading")
    (hok3 : parseLoadingBlock C b3 = .ok n3) :
    parseConnectedBlocks C [b1, b2, b3] =
      (⟨some n1, none, none⟩,
        [⟨b2.startSourceSpan, "Unrecognized block \"@" ++ b2.name ++ "\""⟩]) := by
  simp [parseConnectedBlocks, parseConnectedBlocksAux, handleConnectedBlock,
    isConnected_placeholder, hn1, hok1, hun, hn3, hok3]

/-- Claim C2, witness. -/
theorem C2_witness :
    parseConnectedBlocks Cc [bPH, bUnknown, bLoad] =
      (⟨some ⟨[], none, 0, 3, none⟩, none, none⟩,
        [⟨6, "Unrecognized block \"@" ++ "unknown-block" ++ "\""⟩]) :=
  C2_theorem Cc bPH bUnknown bLoad ⟨[], none, 0, 3, none⟩ ⟨[], none, none, 0, 4, none⟩
    rfl rfl (by decide) rfl rfl

/-- Claim C3: duplicate recognized connected-block kinds — for each of the
three recognized kinds, when two valid blocks of that kind are processed
(the slot for that kind still empty), exactly one diagnostic
`@defer block can only have one @<kind> block` is appended at the second
block's start span, the node parsed from the first block is kept in the
slot, and processing continues with the remaining siblings (no early
exit). -/
theorem C3_theorem {σ χ : Type} :
    (∀ (C : Collaborators σ χ) (b1 b2 : Block σ χ) (rest : List (Block σ χ))
      (sl : Option (DeferredBlockLoading σ χ)) (se : Option (DeferredBlockError σ χ))
      (errs : List (ParseError σ)) (n1 n2 : DeferredBlockPlaceholder σ χ),
      b1.name = "placeholder" → b2.name = "placeholder" →
      parsePlaceholderBlock C b1 = .ok n1 → parsePlaceholderBlock C b2 = .ok n2 →
      parseConnectedBlocksAux C (b1 :: b2 :: rest) ⟨none, sl, se⟩ errs =
        parseConnectedBlocksAux C rest ⟨some n1, sl, se⟩
          (errs ++ [⟨b2.startSourceSpan, "@defer block can only have one @placeholder block"⟩])) ∧
    (∀ (C : Collaborators σ χ) (b1 b2 : Block σ χ) (rest : List (Block σ χ))
      (sp : Option (DeferredBlockPlaceholder σ χ)) (se : Option (DeferredBlockError σ χ))
      (errs : List (ParseError σ)) (n1 n2 : DeferredBlockLoading σ χ),
      b1.name = "loading" → b2.name = "loading" →
      parseLoadingBlock C b1 = .ok n1 → parseLoadingBlock C b2 = .ok n2 →
      parseConnectedBlocksAux C (b1 :: b2 :: rest) ⟨sp, none, se⟩ errs =
        parseConnectedBlocksAux C rest ⟨sp, some n1, se⟩
          (errs ++ [⟨b2.startSourceSpan, "@defer block can only have one @loading block"⟩])) ∧
    (∀ (C : Collaborators σ χ) (b1 b2 : Block σ χ) (rest : List (Block σ χ))
      (sp : Option (DeferredBlockPlaceholder σ χ)) (sl : Option (DeferredBlockLoading σ χ))
      (errs : List (ParseError σ)) (n1 n2 : DeferredBlockError σ χ),
      b1.name = "error" → b2.name = "error" →
      parseErrorBlock C b1 = .ok n1 → parseErrorBlock C b2 = .ok n2 →
      parseConnectedBlocksAux C (b1 :: b2 :: rest) ⟨sp, sl, none⟩ errs =
        parseConnectedBlocksAux C rest ⟨sp, sl, some n1⟩
          (errs ++ [⟨b2.startSourceSpan, "@defer block can only have one @error block"⟩])) := by
  refine ⟨?_, ?_, ?_⟩ <;>
    (intro C b1 b2 rest x y errs n1 n2 h1 h2 hok1 hok2;
     simp [parseConnectedBlocksAux, handleConnectedBlock, isConnectedDeferLoopBlock,
       h1, h2, hok1, hok2])

/-- Claim C3, witness (placeholder case, duplicates at the head of the
list, empty state and no prior diagnostics). -/
theorem C3_witness :
    parseConnectedBlocksAux Cc [bPH, bPH] ⟨none, none, none⟩ [] =
      parseConnectedBlocksAux Cc [] ⟨some ⟨[], none, 0, 3, none⟩, none, none⟩
        ([] ++ [⟨3, "@defer block can only have one @placeholder block"⟩]) :=
  C3_theorem.1 Cc bPH bPH [] none none [] ⟨[], none, 0, 3, none⟩ ⟨[], none, 0, 3, none⟩
    rfl rfl rfl rfl

/-- Claim C4: a connected-block list holding exactly one valid placeholder,
one valid loading and one valid error block, in any of the six orders,
classifies into all three slots populated with zero diagnostics. -/
theorem C4_theorem {σ χ : Type} (C : Collaborators σ χ) (bp bl be : Block σ χ)
    (np : DeferredBlockPlaceholder σ χ) (nl : DeferredBlockLoading σ χ)
    (ne : DeferredBlockError σ χ) (bs : List (Block σ χ))
    (hp : bp.name = "placeholder") (hl : bl.name = "loading") (he : be.name = "error")
    (hokp : parsePlaceholderBlock C bp = .ok np)
    (hokl : parseLoadingBlock C bl = .ok nl)
    (hoke : parseErrorBlock C be = .ok ne)
    (horder : bs = [bp, bl, be] ∨ bs = [bp, be, bl] ∨ bs = [bl, bp, be] ∨
      bs = [bl, be, bp] ∨ bs = [be, bp, bl] ∨ bs = [be, bl, bp]) :
    parseConnectedBlocks C bs = (⟨some np, some nl, some ne⟩, []) := by
  rcases horder with rfl | rfl | rfl | rfl | rfl | rfl <;>
    simp [parseConnectedBlocks, parseConnectedBlocksAux, handleConnectedBlock,
      isConnectedDeferLoopBlock, hp, hl, he, hokp, hokl, hoke]

/-- Claim C4, witness (order [error, placeholder, loading]). -/
theorem C4_witness :
    parseConnectedBlocks Cc [bErr, bPH, bLoad] =
      (⟨some ⟨[], none, 0, 3, none⟩, some ⟨[], none, none, 0, 4, none⟩,
        some ⟨[], 0, 5, none⟩⟩, []) :=
  C4_theorem Cc bPH bLoad bErr ⟨[], none, 0, 3, none⟩ ⟨[], none, none, 0, 4, none⟩
    ⟨[], 0, 5, none⟩ [bErr, bPH, bLoad] rfl rfl rfl rfl rfl rfl
    (by simp)

/-- Claim C5: an error connected block with a non-empty parameter list is
rejected by a single length check, before and regardless of any
per-parameter processing: the sub-parser fails with
`@error block cannot have parameters` for every non-empty parameter list,
and classification of such a block yields exactly that one diagnostic at the
block's start span and an empty error slot. -/
theorem C5_theorem {σ χ : Type} (C : Collaborators σ χ) (b : Block σ χ)
    (hname : b.name = "error") (hps : b.parameters ≠ []) :
    parseErrorBlock C b = .error "@error block cannot have parameters" ∧
    parseConnectedBlocks C [b] =
      (⟨none, none, none⟩, [⟨b.startSourceSpan, "@error block cannot have parameters"⟩]) := by
  have hlen : b.parameters.length > 0 := List.length_pos.mpr hps
  have herr : parseErrorBlock C b = .error "@error block cannot have parameters" := by
    simp [parseErrorBlock, hlen]
  refine ⟨herr, ?_⟩
  simp [parseConnectedBlocks, parseConnectedBlocksAux, handleConnectedBlock,
    isConnectedDeferLoopBlock, hname, herr]

/-- Claim C5, witness. -/
theorem C5_witness :
    parseErrorBlock Cc bErrBad = .error "@error block cannot have parameters" ∧
    parseConnectedBlocks Cc [bErrBad] =
      (⟨none, none, none⟩, [⟨8, "@error block cannot have parameters"⟩]) :=
  C5_theorem Cc bErrBad rfl (by decide)

/-! ## Pattern evaluation facts and whitespace helpers -/

theorem whenPat_when_x : WHEN_PARAMETER_PATTERN "when x > 0" = true := by decide

theorem whenPat_on_idle : WHEN_PARAMETER_PATTERN "on idle" = false := by decide

theorem onPat_on_idle : ON_PARAMETER_PATTERN "on idle" = true := by decide

theorem whenPat_pf_when : WHEN_PARAMETER_PATTERN "prefetch when y" = false := by decide

theorem onPat_pf_when : ON_PARAMETER_PATTERN "prefetch when y" = false := by decide

theorem pfWhenPat_pf_when : PREFETCH_WHEN_PATTERN "prefetch when y" = true := by decide

theorem whenPat_pf_on : WHEN_PARAMETER_PATTERN "prefetch on hover" = false := by decide

theorem onPat_pf_on : ON_PARAMETER_PATTERN "prefetch on hover" = false := by decide

theorem pfWhenPat_pf_on : PREFETCH_WHEN_PATTERN "prefetch on hover" = false := by decide

theorem pfOnPat_pf_on : PREFETCH_ON_PATTERN "prefetch on hover" = true := by decide

theorem whenPat_pf3 : WHEN_PARAMETER_PATTERN "prefetch   when x" = false := by decide

theorem onPat_pf3 : ON_PARAMETER_PATTERN "prefetch   when x" = false := by decide

theorem pfWhenPat_pf3 : PREFETCH_WHEN_PATTERN "prefetch   when x" = true := by decide

theorem minPat_tab : MINIMUM_PARAMETER_PATTERN "minimum\t100ms" = true := by decide

theorem dropWhile_ws_not_head (k : Char) (l : List Char) (h : jsWs k = false) :
    List.dropWhile jsWs (k :: l) = k :: l := by
  simp [List.dropWhile, h]

theorem kwWsTest_of_ws (kw : String) (c : Char) (rest : List Char) (h : jsWs c = true) :
    kwWsTest kw (String.mk (kw.data ++ c :: rest)) = true := by
  simp [kwWsTest, stripLit_append_self, h]

theorem prefetchKwTest_of_ws (kw : String) (k0 : Char) (ktail : List Char)
    (hkw : kw.data = k0 :: ktail) (hk0 : jsWs k0 = false)
    (c : Char) (ws : List Char) (d : Char) (rest : List Char)
    (hc : jsWs c = true) (hws : ∀ x ∈ ws, jsWs x = true) (hd : jsWs d = true) :
    prefetchKwTest kw
      (String.mk ("prefetch".data ++ c :: (ws ++ (kw.data ++ d :: rest)))) = true := by
  have h1 : List.dropWhile jsWs (ws ++ (kw.data ++ d :: rest)) = kw.data ++ d :: rest := by
    rw [dropWhile_ws_append _ _ hws, hkw, List.cons_append,
      dropWhile_ws_not_head _ _ hk0, ← List.cons_append]
  simp [prefetchKwTest, stripLit, stripLit_append_self, hc, h1, hd]

/-- Claim C6: for the primary-block parameters `when x > 0`, `on idle`,
`prefetch when y`, `prefetch on hover`, under the assumption that the when-
and on-trigger collaborators accept these inputs and register one key each,
trigger dispatch puts the conditional and idle keys in the immediate trigger
set, the conditional and hover keys in the prefetch trigger set, and
produces zero diagnostics; each parameter lands in exactly one bucket. -/
theorem C6_theorem {σ χ : Type} (C : Collaborators σ χ)
    (ph : Option (DeferredBlockPlaceholder σ χ)) (s1 s2 s3 s4 : σ)
    (k1 k2 k3 k4 : String)
    (h1 : C.parseWhenTrigger ⟨"when x > 0", s1⟩ [] [] = ([k1], []))
    (h2 : C.parseOnTrigger ⟨"on idle", s2⟩ [k1] [] ph = ([k1, k2], []))
    (h3 : C.parseWhenTrigger ⟨"prefetch when y", s3⟩ [] [] = ([k3], []))
    (h4 : C.parseOnTrigger ⟨"prefetch on hover", s4⟩ [k3] [] ph = ([k3, k4], [])) :
    parsePrimaryTriggers C
        [⟨"when x > 0", s1⟩, ⟨"on idle", s2⟩, ⟨"prefetch when y", s3⟩,
          ⟨"prefetch on hover", s4⟩] [] ph =
      ([k1, k2], [k3, k4], []) := by
  simp [parsePrimaryTriggers, parsePrimaryTriggersAux, h1, h2, h3, h4,
    whenPat_when_x, whenPat_on_idle, onPat_on_idle, whenPat_pf_when, onPat_pf_when,
    pfWhenPat_pf_when, whenPat_pf_on, onPat_pf_on, pfWhenPat_pf_on, pfOnPat_pf_on]

/-- Claim C6, witness. -/
theorem C6_witness :
    parsePrimaryTriggers Cc
        [⟨"when x > 0", 1⟩, ⟨"on idle", 2⟩, ⟨"prefetch when y", 3⟩,
          ⟨"prefetch on hover", 4⟩] [] none =
      (["when:when x > 0", "on:on idle"],
        ["when:prefetch when y", "on:prefetch on hover"], []) :=
  C6_theorem Cc none 1 2 3 4 "when:when x > 0" "on:on idle"
    "when:prefetch when y" "on:prefetch on hover" rfl rfl rfl rfl

/-- Claim C7: a primary-block parameter matching none of the four trigger
prefixes contributes exactly one `Unrecognized trigger` diagnostic at its
own source span, adds nothing to either trigger set, and processing
continues with the remaining parameters. -/
theorem C7_theorem {σ χ : Type} (C : Collaborators σ χ)
    (ph : Option (DeferredBlockPlaceholder σ χ)) (p : BlockParameter σ)
    (rest : List (BlockParameter σ)) (ts pts : TriggerSet) (errs : List (ParseError σ))
    (hw : WHEN_PARAMETER_PATTERN p.expression = false)
    (ho : ON_PARAMETER_PATTERN p.expression = false)
    (hpw : PREFETCH_WHEN_PATTERN p.expression = false)
    (hpo : PREFETCH_ON_PATTERN p.expression = false) :
    parsePrimaryTriggersAux C ph (p :: rest) ts pts errs =
      parsePrimaryTriggersAux C ph rest ts pts
        (errs ++ [⟨p.sourceSpan, "Unrecognized trigger"⟩]) := by
  simp [parsePrimaryTriggersAux, hw, ho, hpw, hpo]

/-- Claim C7, witness. -/
theorem C7_witness :
    parsePrimaryTriggersAux Cc none [⟨"unknown foo", 5⟩] [] [] [] =
      parsePrimaryTriggersAux Cc none [] [] [] ([] ++ [⟨5, "Unrecognized trigger"⟩]) :=
  C7_theorem Cc none ⟨"unknown foo", 5⟩ [] [] [] []
    (by decide) (by decide) (by decide) (by decide)

/-- Claim C8: the top-level assembly function always returns a
`DeferredBlock` node together with a diagnostic list (it is a total
function, given collaborators that are total), and every sub-parser failure
is caught at the classifier level and converted into a diagnostic carrying
the failure message at that block's start span, with processing continuing
on the remaining siblings and the slots unchanged. -/
theorem C8_theorem {σ χ : Type} :
    (∀ (C : Collaborators σ χ) (ast : Block σ χ) (bs : List (Block σ χ)),
      ∃ node errs, createDeferredBlock C ast bs = (node, errs)) ∧
    (∀ (C : Collaborators σ χ) (b : Block σ χ) (rest : List (Block σ χ))
      (s : ConnSlots σ χ) (errs : List (ParseError σ)) (m : String),
      b.name = "placeholder" → s.placeholder = none →
      parsePlaceholderBlock C b = .error m →
      parseConnectedBlocksAux C (b :: rest) s errs =
        parseConnectedBlocksAux C rest s (errs ++ [⟨b.startSourceSpan, m⟩])) ∧
    (∀ (C : Collaborators σ χ) (b : Block σ χ) (rest : List (Block σ χ))
      (s : ConnSlots σ χ) (errs : List (ParseError σ)) (m : String),
      b.name = "loading" → s.loading = none →
      parseLoadingBlock C b = .error m →
      parseConnectedBlocksAux C (b :: rest) s errs =
        parseConnectedBlocksAux C rest s (errs ++ [⟨b.startSourceSpan, m⟩])) ∧
    (∀ (C : Collaborators σ χ) (b : Block σ χ) (rest : List (Block σ χ))
      (s : ConnSlots σ χ) (errs : List (ParseError σ)) (m : String),
      b.name = "error" → s.error = none →
      parseErrorBlock C b = .error m →
      parseConnectedBlocksAux C (b :: rest) s errs =
        parseConnectedBlocksAux C rest s (errs ++ [⟨b.startSourceSpan, m⟩])) := by
  refine ⟨fun C ast bs => ⟨_, _, rfl⟩, ?_, ?_, ?_⟩ <;>
    (intro C b rest s errs m hname hslot herr;
     simp [parseConnectedBlocksAux, handleConnectedBlock, isConnected_placeholder,
       isConnected_loading, isConnected_error, hname, hslot, herr])

/-- Claim C8, witness (placeholder conjunct, at an invalid placeholder
block). -/
theorem C8_witness :
    parseConnectedBlocksAux Cc [bBadPH] ⟨none, none, none⟩ [] =
      parseConnectedBlocksAux Cc [] ⟨none, none, none⟩
        ([] ++ [⟨7, "Unrecognized parameter in @placeholder block: \"bogus\""⟩]) :=
  C8_theorem.2.1 Cc bBadPH [] ⟨none, none, none⟩ []
    "Unrecognized parameter in @placeholder block: \"bogus\"" rfl rfl rfl

/-- Claim C9: when a recognized connected block's sub-parser fails, its slot
stays `none`, so a later sibling of the same kind is still parsed and
stored: for [invalid placeholder, valid placeholder], the result holds the
second placeholder's node and exactly one diagnostic — the first block's
failure message at its start span — with no duplicate-placeholder
diagnostic. -/
theorem C9_theorem {σ χ : Type} (C : Collaborators σ χ) (b1 b2 : Block σ χ)
    (n2 : DeferredBlockPlaceholder σ χ) (m : String)
    (h1 : b1.name = "placeholder") (he : parsePlaceholderBlock C b1 = .error m)
    (h2 : b2.name = "placeholder") (hok : parsePlaceholderBlock C b2 = .ok n2) :
    parseConnectedBlocks C [b1, b2] =
      (⟨some n2, none, none⟩, [⟨b1.startSourceSpan, m⟩]) := by
  simp [parseConnectedBlocks, parseConnectedBlocksAux, handleConnectedBlock,
    isConnected_placeholder, h1, he, h2, hok]

/-- Claim C9, witness. -/
theorem C9_witness :
    parseConnectedBlocks Cc [bBadPH, bPH] =
      (⟨some ⟨[], none, 0, 3, none⟩, none, none⟩,
        [⟨7, "Unrecognized parameter in @placeholder block: \"bogus\""⟩]) :=
  C9_theorem Cc bBadPH bPH ⟨[], none, 0, 3, none⟩
    "Unrecognized parameter in @placeholder block: \"bogus\"" rfl rfl rfl rfl

/-- Claim C10: keyword recognition is by whitespace-class patterns, not
literal single-space prefixes: a keyword test accepts the keyword followed
by any whitespace character (and space, tab and newline are all whitespace),
in the prefetch forms `prefetch` may be separated from `when`/`on` by one or
more whitespace characters, `prefetch   when x` is classified as a prefetch
conditional trigger, and `minimum` followed by a tab is treated as a
`minimum` parameter. -/
theorem C10_theorem :
    (∀ (kw : String) (c : Char) (rest : List Char), jsWs c = true →
      kwWsTest kw (String.mk (kw.data ++ c :: rest)) = true) ∧
    (jsWs ' ' = true ∧ jsWs '\t' = true ∧ jsWs '\n' = true) ∧
    (∀ (c : Char) (ws : List Char) (d : Char) (rest : List Char),
      jsWs c = true → (∀ x ∈ ws, jsWs x = true) → jsWs d = true →
      PREFETCH_WHEN_PATTERN
          (String.mk ("prefetch".data ++ c :: (ws ++ ("when".data ++ d :: rest)))) = true ∧
      PREFETCH_ON_PATTERN
          (String.mk ("prefetch".data ++ c :: (ws ++ ("on".data ++ d :: rest)))) = true) ∧
    (PREFETCH_WHEN_PATTERN "prefetch   when x" = true ∧
      MINIMUM_PARAMETER_PATTERN "minimum\t100ms" = true) ∧
    (∀ (σ χ : Type) (C : Collaborators σ χ) (ph : Option (DeferredBlockPlaceholder σ χ))
      (p : BlockParameter σ) (rest : List (BlockParameter σ)) (ts pts : TriggerSet)
      (errs : List (ParseError σ)), p.expression = "prefetch   when x" →
      parsePrimaryTriggersAux C ph (p :: rest) ts pts errs =
        parsePrimaryTriggersAux C ph rest ts (C.parseWhenTrigger p pts errs).1
          (C.parseWhenTrigger p pts errs).2) ∧
    (∀ (σ χ : Type) (C : Collaborators σ χ) (p : BlockParameter σ) (t : Nat),
      p.expression = "minimum\t100ms" →
      C.parseDeferredTime
          (sliceFrom p.expression (C.getTriggerParametersStart p.expression)) = some t →
      placeholderParamsLoop C [p] none = .ok (some t)) := by
  refine ⟨?_, by decide, ?_, ⟨pfWhenPat_pf3, minPat_tab⟩, ?_, ?_⟩
  · exact fun kw c rest h => kwWsTest_of_ws kw c rest h
  · intro c ws d rest hc hws hd
    exact ⟨prefetchKwTest_of_ws "when" 'w' "hen".data rfl (by decide) c ws d rest hc hws hd,
      prefetchKwTest_of_ws "on" 'o' "n".data rfl (by decide) c ws d rest hc hws hd⟩
  · intro σ χ C ph p rest ts pts errs hexpr
    simp [parsePrimaryTriggersAux, hexpr, whenPat_pf3, onPat_pf3, pfWhenPat_pf3]
  · intro σ χ C p t hexpr ht
    rw [hexpr] at ht
    simp [placeholderParamsLoop, hexpr, minPat_tab, ht]

/-- Claim C10, witness. -/
theorem C10_witness :
    kwWsTest "minimum" (String.mk ("minimum".data ++ '\n' :: "5s".data)) = true ∧
    PREFETCH_WHEN_PATTERN
        (String.mk ("prefetch".data ++ ' ' :: (['\t'] ++ ("when".data ++ ' ' :: "x".data)))) =
      true ∧
    placeholderParamsLoop Cc [⟨"minimum\t100ms", 1⟩] none = .ok (some 100) :=
  ⟨C10_theorem.1 "minimum" '\n' "5s".data (by decide),
    (C10_theorem.2.2.1 ' ' ['\t'] ' ' "x".data (by decide) (by decide) (by decide)).1,
    C10_theorem.2.2.2.2.2 Nat Nat Cc ⟨"minimum\t100ms", 1⟩ 100 rfl rfl⟩
